import Mathlib

/-!
# Verification of the HRIS REST API attendance and session subsystem

Shallow embedding of the session manager
(`api-modules/hris_rest_api/controllers/session_manager.py`) and the
attendance-cycle controllers
(`api-modules/hris_rest_api/controllers/attendance.py`,
`custom-addons/hris_attendance_gps/models/hr_attendance.py`).

Conventions of the embedding:
* Timestamps are integer seconds since the Unix epoch (`Int`); the stored
  `check_in`/`check_out` values are naive UTC, exactly as the Python code
  stores them.  Python's floor division `//` and `%` by the positive
  constants 3600/60/86400 coincide with Lean's `Int` `/` and `%`
  (Euclidean division: the remainder is non-negative and, for a positive
  divisor, the quotient is the floor).
* JSON request fields are modelled by `JVal` (absent field = `JVal.null`,
  matching Python `data.get(k)` returning `None`).  Python truthiness and
  `float(...)` conversion are modelled by `JVal.truthy` / `JVal.toFloat?`
  (`toFloat?` covers the plain decimal literals the endpoints receive;
  any other string fails to parse, as `float` raises `ValueError`).
* The geodesic distance is computed by the external `geopy` library; it
  is kept abstract as a function parameter `geoDist`.
* The ORM record store is modelled as a plain list of records, following
  the specification's own boundary ("a durable record store ... treated
  as external systems outside this core's scope"): search/create/update
  do exactly what the controller asks, nothing more.
* The controllers run sequentially (one request at a time), per the
  claims under scrutiny.
-/

/-- A JSON-ish request value.  `null` stands for an absent field
(`data.get(k) = None`). -/
inductive JVal where
  | null : JVal
  | num (q : ℚ) : JVal
  | str (s : String) : JVal
deriving DecidableEq, Repr

/-- Python truthiness: `None`, `0` and `""` are falsy, everything else
truthy.  This is the test `if not latitude or not longitude` performs. -/
def JVal.truthy : JVal → Bool
  | .null => false
  | .num q => decide (q ≠ 0)
  | .str s => !s.isEmpty

/-- Digit-string to `Nat` (`none` on empty input or non-digit chars). -/
def parseNatDigits (l : List Char) : Option Nat :=
  if l.isEmpty then none
  else if l.all Char.isDigit then
    some (l.foldl (fun a c => 10 * a + (c.toNat - 48)) 0)
  else none

/-- Unsigned decimal literal (`"12"`, `"12.5"`, `"12."`, `".5"`). -/
def parseUnsigned (l : List Char) : Option ℚ :=
  match l.splitOn '.' with
  | [w] => (parseNatDigits w).map (fun n => (n : ℚ))
  | [w, f] =>
    if w.isEmpty && f.isEmpty then none
    else
      match (if w.isEmpty then some 0 else parseNatDigits w),
            (if f.isEmpty then some 0 else parseNatDigits f) with
      | some n, some m => some ((n : ℚ) + (m : ℚ) / ((10 : ℚ) ^ f.length))
      | _, _ => none
  | _ => none

/-- Model of Python `float(s)` on the decimal literals the API receives;
returns `none` where `float` raises `ValueError`. -/
def parseFloat? (s : String) : Option ℚ :=
  match s.toList with
  | '-' :: rest => (parseUnsigned rest).map Neg.neg
  | '+' :: rest => parseUnsigned rest
  | l => parseUnsigned l

/-- Model of Python `float(x)` on a request value: numbers convert,
strings parse, `None` raises `TypeError` (= `none`). -/
def JVal.toFloat? : JVal → Option ℚ
  | .null => none
  | .num q => some q
  | .str s => parseFloat? s

/-- Zero-pad a natural number to (at least) two digits, as `f"{n:02d}"`. -/
def pad2 (n : Nat) : String :=
  let s := toString n
  if s.length < 2 then "0" ++ s else s

/-- Zero-pad an integer to (at least) two characters, as `f"{n:02d}"`. -/
def pad2Int (n : Int) : String :=
  let s := toString n
  if s.length < 2 then "0" ++ s else s

/-- The working-hours computation the code performs at every check-out
(attendance.py lines 426-432/713-719, hr_attendance.py lines 16-24):
`duration = check_out - check_in` in seconds, then
`f"{int(d//3600):02d}:{int(d%3600//60):02d}:{int(d%60):02d}"`. -/
def working_hours_str (check_in check_out : Int) : String :=
  let d := check_out - check_in
  pad2Int (d / 3600) ++ ":" ++ pad2Int (d % 3600 / 60) ++ ":" ++ pad2Int (d % 60)

/-- The specification's words for C3: the elapsed duration (a number of
seconds) formatted as zero-padded `HH:MM:SS` with integer truncation. -/
def specHHMMSS (d : Nat) : String :=
  pad2 (d / 3600) ++ ":" ++ pad2 (d % 3600 / 60) ++ ":" ++ pad2 (d % 60)

theorem pad2Int_natCast (n : Nat) : pad2Int (n : Int) = pad2 n := rfl

theorem working_hours_str_natCast (ci : Int) (n : Nat) :
    working_hours_str ci (ci + n) = specHHMMSS n := by
  show pad2Int ((ci + n - ci) / 3600) ++ ":" ++
      pad2Int ((ci + n - ci) % 3600 / 60) ++ ":" ++
      pad2Int ((ci + n - ci) % 60) = _
  have hd : ci + (n : Int) - ci = (n : Int) := by omega
  rw [hd]
  have h2 : (n : Int) / 3600 = ((n / 3600 : Nat) : Int) := by omega
  have h3 : (n : Int) % 3600 = ((n % 3600 : Nat) : Int) := by omega
  have h4 : ((n % 3600 : Nat) : Int) / 60 = ((n % 3600 / 60 : Nat) : Int) := by omega
  have h5 : (n : Int) % 60 = ((n % 60 : Nat) : Int) := by omega
  rw [h2, h3, h4, h5, pad2Int_natCast, pad2Int_natCast, pad2Int_natCast]
  rfl

theorem working_hours_str_eq_spec (ci co : Int) (h : ci ≤ co) :
    working_hours_str ci co = specHHMMSS (co - ci).toNat := by
  have h1 : co = ci + ((co - ci).toNat : Int) := by omega
  conv_lhs => rw [h1]
  exact working_hours_str_natCast ci (co - ci).toNat

/-!
## Session manager (`controllers/session_manager.py`)

The Python dict `_sessions` is modelled as an association list whose keys
are unique (a dict invariant); `now` is the clock in seconds.  The mutex
is irrelevant under the sequential execution considered here.
-/

/-- One `_sessions` entry: `{'user_id': ..., 'created_at': ..., 'last_used': ...}`. -/
structure SessEntry where
  user_id : Nat
  created_at : Nat
  last_used : Nat
deriving DecidableEq, Repr

/-- The `_sessions` dict: token → entry, insertion-ordered. -/
abbrev SessStore : Type := List (String × SessEntry)

/-- `_cleanup_interval = timedelta(hours=24)`, in seconds. -/
def sessionTTL : Nat := 86400

/-- Keys of a session store. -/
def SessStore.keys (s : SessStore) : List String := s.map Prod.fst

/-- Dict well-formedness: keys are unique. -/
def SessStore.WF (s : SessStore) : Prop := s.keys.Nodup

/-- Python dict assignment `d[k] = v`: replace in place if present,
append otherwise. -/
def dictInsert (tok : String) (e : SessEntry) (s : SessStore) : SessStore :=
  if s.any (fun p => p.1 == tok) then
    s.map (fun p => if p.1 == tok then (tok, e) else p)
  else s ++ [(tok, e)]

/-- `_cleanup_expired_sessions` (lines 82-99): drop every entry with
`now - created_at > cleanup_interval`. -/
def cleanup_expired (now : Nat) (s : SessStore) : SessStore :=
  s.filter (fun p => !decide (now - p.2.created_at > sessionTTL))

/-- `store_session` (lines 16-28): overwrite the mapping with
`created_at = last_used = now`, then opportunistically clean up. -/
def store_session (tok : String) (uid : Nat) (now : Nat) (s : SessStore) : SessStore :=
  cleanup_expired now (dictInsert tok ⟨uid, now, now⟩ s)

/-- `get_user_id` (lines 30-49): fresh entry → update `last_used`, return
the user id; expired entry → delete it, return `None`; absent → `None`.
Returns the answer and the store after the call. -/
def get_user_id (tok : String) (now : Nat) (s : SessStore) : Option Nat × SessStore :=
  match s.find? (fun p => p.1 == tok) with
  | some (_, e) =>
    if now - e.created_at < sessionTTL then
      (some e.user_id,
       s.map (fun p => if p.1 == tok then (p.1, { e with last_used := now }) else p))
    else
      (none, s.filter (fun p => !(p.1 == tok)))
  | none => (none, s)

/-- `remove_session` (lines 72-80): idempotent deletion. -/
def remove_session (tok : String) (s : SessStore) : SessStore :=
  s.filter (fun p => !(p.1 == tok))

/-- `get_session_count` (lines 101-104). -/
def get_session_count (s : SessStore) : Nat := s.length

theorem find?_map_of_key (tok : String) (v : SessEntry) (s : SessStore)
    (f : String × SessEntry → String × SessEntry)
    (hmatch : ∀ p, p.1 = tok → f p = (tok, v))
    (hkeep : ∀ p, p.1 ≠ tok → (f p).1 = p.1)
    (h : s.any (fun p => p.1 == tok) = true) :
    (s.map f).find? (fun p => p.1 == tok) = some (tok, v) := by
  induction s with
  | nil => simp at h
  | cons hd tl ih =>
    by_cases hh : hd.1 = tok
    · rw [List.map_cons, hmatch hd hh]
      exact List.find?_cons_of_pos _ (by simp)
    · rw [List.map_cons, List.find?_cons_of_neg _ (by simp [hkeep hd hh, hh])]
      apply ih
      simpa [List.any_cons, hh] using h

theorem find?_dictInsert (tok : String) (e : SessEntry) (s : SessStore) :
    (dictInsert tok e s).find? (fun p => p.1 == tok) = some (tok, e) := by
  unfold dictInsert
  by_cases h : s.any (fun p => p.1 == tok) = true
  · rw [if_pos h]
    exact find?_map_of_key tok e s _
      (fun p hp => by simp [hp]) (fun p hp => by simp [hp]) h
  · rw [if_neg h, List.find?_append]
    have hnone : s.find? (fun p => p.1 == tok) = none := by
      rw [List.find?_eq_none]
      intro x hx hpx
      exact h (List.any_eq_true.mpr ⟨x, hx, hpx⟩)
    simp [hnone]

theorem find?_filter_of_find? {α : Type} (p q : α → Bool) (l : List α) (x : α)
    (hf : l.find? p = some x) (hq : q x = true) :
    (l.filter q).find? p = some x := by
  induction l with
  | nil => simp at hf
  | cons hd tl ih =>
    by_cases hp : p hd = true
    · rw [List.find?_cons_of_pos _ hp] at hf
      cases hf
      rw [List.filter_cons_of_pos hq]
      exact List.find?_cons_of_pos _ hp
    · rw [List.find?_cons_of_neg _ hp] at hf
      by_cases hqh : q hd = true
      · rw [List.filter_cons_of_pos hqh, List.find?_cons_of_neg _ hp]
        exact ih hf
      · simp only [List.filter_cons, hqh, Bool.false_eq_true, if_false]
        exact ih hf

/-- `store_session` immediately followed by `get_user_id` (within the TTL)
returns the stored user id. -/
theorem get_after_store (s : SessStore) (tok : String) (uid : Nat)
    (now now' : Nat) (h2 : now' - now < sessionTTL) :
    (get_user_id tok now' (store_session tok uid now s)).1 = some uid := by
  unfold store_session cleanup_expired get_user_id
  have hfc := find?_filter_of_find?
    (fun p => p.1 == tok)
    (fun p => !decide (now - p.2.created_at > sessionTTL))
    (dictInsert tok ⟨uid, now, now⟩ s) (tok, ⟨uid, now, now⟩)
    (find?_dictInsert tok ⟨uid, now, now⟩ s)
    (by simp)
  rw [hfc]
  simp [h2]

/-- C8: after `store_session(token, user_id)` and before the TTL elapses,
`get_user_id(token)` returns `user_id`; a second `store_session` with the
same token silently overwrites, so the lookup returns the new user id. -/
theorem session_store_get_roundtrip (s : SessStore) (tok : String)
    (u1 u2 : Nat) (now1 now2 now' : Nat) (h2 : now' - now2 < sessionTTL) :
    (get_user_id tok now' (store_session tok u2 now2 s)).1 = some u2 ∧
    (get_user_id tok now'
      (store_session tok u2 now2 (store_session tok u1 now1 s))).1 = some u2 :=
  ⟨get_after_store s tok u2 now2 now' h2,
   get_after_store (store_session tok u1 now1 s) tok u2 now2 now' h2⟩

/-- Closed witness for `session_store_get_roundtrip`. -/
theorem session_store_get_roundtrip_witness :
    (get_user_id "t" 100 (store_session "t" 7 50 [])).1 = some 7 ∧
    (get_user_id "t" 100
      (store_session "t" 7 50 (store_session "t" 3 10 []))).1 = some 7 :=
  session_store_get_roundtrip [] "t" 3 7 10 50 100 (by decide)

theorem length_filter_ne_key (s : SessStore) (tok : String)
    (hWF : s.WF) (hmem : tok ∈ s.keys) :
    (s.filter (fun p => !(p.1 == tok))).length + 1 = s.length := by
  induction s with
  | nil => simp [SessStore.keys] at hmem
  | cons hd tl ih =>
    have hWFtl : SessStore.WF tl := (List.nodup_cons.mp hWF).2
    by_cases hh : hd.1 = tok
    · have hnot : hd.1 ∉ tl.map Prod.fst := (List.nodup_cons.mp hWF).1
      have hall : tl.filter (fun p => !(p.1 == tok)) = tl := by
        rw [List.filter_eq_self]
        intro x hx
        simp only [Bool.not_eq_true', beq_eq_false_iff_ne, ne_eq]
        intro hxk
        exact hnot (hh ▸ hxk ▸ List.mem_map_of_mem Prod.fst hx)
      simp [List.filter_cons, hh, hall]
    · have hmemtl : tok ∈ SessStore.keys tl := by
        rcases List.mem_cons.mp hmem with h | h
        · exact absurd h.symm hh
        · exact h
      have hne : (hd.1 == tok) = false := beq_eq_false_iff_ne.mpr hh
      have := ih hWFtl hmemtl
      simp only [List.filter_cons, hne, Bool.not_false, if_true,
        List.length_cons]
      omega

/-- C9: with an entry stored for `token`: a lookup once the TTL has
elapsed returns `None` and deletes the entry, so the session count drops
by one; the lookup succeeds exactly when `now - created_at < TTL`; and a
successful lookup returns the bound user id and stamps `last_used = now`. -/
theorem session_expiry_validity (s : SessStore) (tok : String)
    (e : SessEntry) (now : Nat) (hWF : s.WF)
    (hfind : s.find? (fun p => p.1 == tok) = some (tok, e)) :
    (sessionTTL ≤ now - e.created_at →
      (get_user_id tok now s).1 = none ∧
      get_session_count (get_user_id tok now s).2 + 1 = get_session_count s) ∧
    ((get_user_id tok now s).1.isSome = true ↔ now - e.created_at < sessionTTL) ∧
    (now - e.created_at < sessionTTL →
      (get_user_id tok now s).1 = some e.user_id ∧
      (get_user_id tok now s).2.find? (fun p => p.1 == tok) =
        some (tok, { e with last_used := now })) := by
  have hmem : tok ∈ s.keys := by
    have := List.mem_of_find?_eq_some hfind
    exact List.mem_map_of_mem Prod.fst this
  have hany : s.any (fun p => p.1 == tok) = true :=
    List.any_eq_true.mpr ⟨(tok, e), List.mem_of_find?_eq_some hfind, by simp⟩
  unfold get_user_id get_session_count
  rw [hfind]
  by_cases hfresh : now - e.created_at < sessionTTL
  · refine ⟨fun hexp => absurd hfresh (by omega), ?_, fun _ => ⟨?_, ?_⟩⟩
    · simp [hfresh]
    · simp [hfresh]
    · simp only [hfresh, if_true]
      exact find?_map_of_key tok { e with last_used := now } s _
        (fun p hp => by simp [hp]) (fun p hp => by simp [hp]) hany
  · refine ⟨fun _ => ⟨by simp [hfresh], ?_⟩, by simp [hfresh],
      fun h => absurd h hfresh⟩
    simp only [hfresh, if_false]
    exact length_filter_ne_key s tok hWF hmem

/-- Closed witness for `session_expiry_validity`: a session created at
time 0, looked up at time `86400` (exactly the 24-hour TTL), is expired,
purged, and the count drops from 1 to 0. -/
theorem session_expiry_validity_witness :
    (sessionTTL ≤ 86400 - 0 →
      (get_user_id "t" 86400 [("t", ⟨5, 0, 0⟩)]).1 = none ∧
      get_session_count (get_user_id "t" 86400 [("t", ⟨5, 0, 0⟩)]).2 + 1 =
        get_session_count [("t", ⟨5, 0, 0⟩)]) ∧
    ((get_user_id "t" 86400 [("t", ⟨5, 0, 0⟩)]).1.isSome = true ↔
      86400 - 0 < sessionTTL) ∧
    (86400 - 0 < sessionTTL →
      (get_user_id "t" 86400 [("t", ⟨5, 0, 0⟩)]).1 =
        some (SessEntry.user_id ⟨5, 0, 0⟩) ∧
      (get_user_id "t" 86400 [("t", ⟨5, 0, 0⟩)]).2.find?
          (fun p => p.1 == "t") =
        some ("t", { (⟨5, 0, 0⟩ : SessEntry) with last_used := 86400 })) :=
  session_expiry_validity [("t", ⟨5, 0, 0⟩)] "t" ⟨5, 0, 0⟩ 86400
    (by simp [SessStore.WF, SessStore.keys]) (by simp [List.find?])

/-!
## Attendance cycle (`controllers/attendance.py`)

State: `hr.attendance` rows and `hr.employee` rows plus the company's
office coordinates.  `now` is the request instant as UTC epoch seconds
(`datetime.now(Asia/Jakarta).astimezone(UTC).replace(tzinfo=None)` is
exactly the UTC instant of the call, so the stored `check_in`/`check_out`
equal `now`).  `off` is the server's local UTC offset in seconds:
`datetime.now().date()` is the calendar date of `now + off`.
-/

/-- One `hr_attendance` row with the fields this module touches
(`hris_attendance_gps/models/hr_attendance.py`: `selfie_photo`,
`latitude`, `longitude` are Char/Binary, `working_hours` a Char with
default `'00:00:00'`). -/
structure AttRec where
  id : Nat
  employee_id : Nat
  check_in : Int
  check_out : Option Int
  working_hours : String
  latitude : JVal
  longitude : JVal
  selfie_photo : JVal
deriving DecidableEq, Repr

/-- One `hr_employee` row (only the key used here). -/
structure Employee where
  id : Nat
  user_id : Option Nat
deriving DecidableEq, Repr

/-- The record store visible to the attendance controllers. -/
structure AttState where
  recs : List AttRec
  nextRecId : Nat
  employees : List Employee
  nextEmpId : Nat
  company_lat : Option ℚ
  company_lon : Option ℚ
deriving DecidableEq, Repr

/-- Asia/Jakarta (WIB) is UTC+7: 25200 seconds. -/
def jakartaOffset : Int := 25200

/-- `datetime.now().date()` rendered as `YYYY-MM-DD 00:00:00` and compared
directly against the UTC-stored timestamps (attendance.py lines 406-412,
616-622): start of the server-local calendar day, taken in raw timestamp
seconds with no timezone conversion. -/
def localDayStart (off now : Int) : Int := 86400 * ((now + off) / 86400)

/-- Modelled from the spec for comparison (C4): the first UTC instant
whose Asia/Jakarta calendar date equals that of the instant `now`. -/
def jakartaDayStartUtc (now : Int) : Int :=
  86400 * ((now + jakartaOffset) / 86400) - jakartaOffset

/-- Modelled from the spec for comparison (C2/C4): two UTC instants fall
on the same Asia/Jakarta calendar date. -/
def sameJakartaDay (t u : Int) : Bool :=
  (t + jakartaOffset) / 86400 == (u + jakartaOffset) / 86400

/-- `getattr(company, 'latitude', None) or DEFAULT` (lines 365-366,
590-591): Python `or` falls back on falsy values, so an unset field *and*
a stored 0.0 both yield the default. -/
def resolveCoord (v : Option ℚ) (dflt : ℚ) : ℚ :=
  match v with
  | some q => if q = 0 then dflt else q
  | none => dflt

def toggleDefaultLat : ℚ := -6969182 / 1000000
def toggleDefaultLon : ℚ := 107629251 / 1000000
def checkinDefaultLat : ℚ := -6986682 / 1000000
def checkinDefaultLon : ℚ := 107637303 / 1000000

/-- `_is_within_radius` (lines 535-544): parse all four coordinates with
`float`, compare the geodesic distance against `radius_m`; any parse
failure is caught and yields `False`. -/
def is_within_radius (geoDist : ℚ → ℚ → ℚ → ℚ → ℚ)
    (user_lat user_lon office_lat office_lon : JVal) (radius_m : ℚ) : Bool :=
  match user_lat.toFloat?, user_lon.toFloat?, office_lat.toFloat?,
      office_lon.toFloat? with
  | some a, some b, some c, some d => decide (geoDist a b c d ≤ radius_m)
  | _, _, _, _ => false

/-- `hr.employee` search by `user_id` (first match). -/
def findEmployee (userId : Nat) (st : AttState) : Option Employee :=
  st.employees.find? (fun e => e.user_id == some userId)

/-- Toggle lines 345-358: look the employee up, auto-create if absent. -/
def getOrCreateEmployee (userId : Nat) (st : AttState) : Employee × AttState :=
  match findEmployee userId st with
  | some e => (e, st)
  | none =>
    let e : Employee := ⟨st.nextEmpId, some userId⟩
    (e, { st with employees := st.employees ++ [e],
                  nextEmpId := st.nextEmpId + 1 })

/-- Check-in lines 568-586: if several employees match, clear `user_id`
on all but the first; create when none match. -/
def dedupEmployee (userId : Nat) (st : AttState) : Employee × AttState :=
  match st.employees.filter (fun e => e.user_id == some userId) with
  | [] =>
    let e : Employee := ⟨st.nextEmpId, some userId⟩
    (e, { st with employees := st.employees ++ [e],
                  nextEmpId := st.nextEmpId + 1 })
  | e :: rest =>
    if rest.isEmpty then (e, st)
    else
      (e, { st with employees := st.employees.map (fun x : Employee =>
          if x.user_id == some userId && x.id != e.id then
            { x with user_id := none } else x) })

/-- The JSON body of a toggle request (lines 330-334). -/
structure ToggleReq where
  latitude : JVal
  longitude : JVal
  location : JVal
  notes : JVal
  camera_image : JVal
deriving DecidableEq, Repr

/-- The toggle's today search predicate (lines 408-412):
`check_in >= 'D 00:00:00' and check_in < 'D+1 00:00:00'`. -/
def todaySearchPred (empId : Nat) (wstart : Int) (r : AttRec) : Bool :=
  r.employee_id == empId && decide (wstart ≤ r.check_in) &&
    decide (r.check_in < wstart + 86400)

/-- `search([...], limit=1)` for the toggle's today window. -/
def searchToday (empId : Nat) (wstart : Int) (recs : List AttRec) :
    Option AttRec :=
  recs.find? (todaySearchPred empId wstart)

/-- The check-in endpoint's search predicate (lines 617-622): open record
(`check_out = False`) with `'D 00:00:00' <= check_in <= 'D 23:59:59'`. -/
def openTodayPred (empId : Nat) (wstart : Int) (r : AttRec) : Bool :=
  r.employee_id == empId && r.check_out.isNone &&
    decide (wstart ≤ r.check_in) && decide (r.check_in ≤ wstart + 86399)

/-- `search([...], limit=1)` for the check-in endpoint's open-today test. -/
def searchOpenToday (empId : Nat) (wstart : Int) (recs : List AttRec) :
    Option AttRec :=
  recs.find? (openTodayPred empId wstart)

/-- The toggle's checkout `UPDATE hr_attendance SET check_out=%s,
working_hours=%s WHERE id=%s AND check_out IS NULL` (lines 435-439). -/
def closeRec (targetId : Nat) (now : Int) (wh : String) (x : AttRec) :
    AttRec :=
  if x.id == targetId && x.check_out.isNone then
    { x with check_out := some now, working_hours := wh }
  else x

/-- Response of the toggle endpoint.  Presentation-level string
formatting (`_format_time_local`, the `f"{...:.2f} km"` interpolation) is
not modelled; the raw values it would format are carried instead
(`check_time`, `distance_from_office`). -/
structure ToggleResp where
  status : Nat
  success : Bool
  message : String
  action : Option String
  is_checked_in : Option Bool
  check_time : Option Int
  working_hours : Option String
  distance_from_office : Option ℚ
deriving DecidableEq, Repr

def errResp (status : Nat) (msg : String) : ToggleResp :=
  ⟨status, false, msg, none, none, none, none, none⟩

def gpsRequiredMsg : String := "GPS coordinates are required for attendance"
def cameraRequiredMsg : String := "Camera photo is required for attendance"
def outsideOfficeMsg : String := "Anda di luar area kantor"
def alreadyDoneMsg : String :=
  "Anda sudah melakukan check-in dan check-out hari ini. Tunggu sampai besok untuk attendance berikutnya."
def errValidatingMsg : String := "Error validating location"
def alreadyCheckedInMsg : String := "Employee is already checked in today"
def noActiveCheckinMsg : String := "No active check-in found for today"

/-- Body of `/api/attendance/toggle` (`toggle_checkin_checkout`, lines
312-533) after authentication, as a state transformer.  `geoDist` is the
external `geopy.distance.geodesic(...).meters`. -/
def toggle (geoDist : ℚ → ℚ → ℚ → ℚ → ℚ) (off now : Int) (userId : Nat)
    (req : ToggleReq) (st : AttState) : ToggleResp × AttState :=
  if !req.latitude.truthy || !req.longitude.truthy then
    (errResp 400 gpsRequiredMsg, st)
  else if !req.camera_image.truthy then
    (errResp 400 cameraRequiredMsg, st)
  else
    let es := getOrCreateEmployee userId st
    let emp := es.1
    let st1 := es.2
    let office_lat := resolveCoord st1.company_lat toggleDefaultLat
    let office_lon := resolveCoord st1.company_lon toggleDefaultLon
    match req.latitude.toFloat?, req.longitude.toFloat? with
    | some ulat, some ulon =>
      let distance := geoDist ulat ulon office_lat office_lon
      let within := is_within_radius geoDist req.latitude req.longitude
        (.num office_lat) (.num office_lon) 100000
      if !within then
        ({ errResp 400 outsideOfficeMsg with
            distance_from_office := some distance }, st1)
      else
        let wstart := localDayStart off now
        match searchToday emp.id wstart st1.recs with
        | some r =>
          match r.check_out with
          | none =>
            let wh := working_hours_str r.check_in now
            let rowcount := (st1.recs.filter (fun x =>
              x.id == r.id && x.check_out.isNone)).length
            if rowcount == 0 then
              (errResp 500 "Failed to update checkout", st1)
            else
              (⟨200, true, "Check out successful", some "check_out",
                 some false, some now, some wh, some distance⟩,
               { st1 with recs := st1.recs.map (closeRec r.id now wh) })
          | some _ => (errResp 400 alreadyDoneMsg, st1)
        | none =>
          let newRec : AttRec := ⟨st1.nextRecId, emp.id, now, none,
            "00:00:00", req.latitude, req.longitude, req.camera_image⟩
          (⟨200, true, "Check in successful", some "check_in", some true,
             some now, none, some distance⟩,
           { st1 with recs := st1.recs ++ [newRec],
                      nextRecId := st1.nextRecId + 1 })
    | _, _ => (errResp 500 errValidatingMsg, st1)

/-- The JSON body of a `/api/attendance/checkin` request (lines 560-564,
635): note the photo field here is `selfie_photo`, and there is no
GPS/photo presence check at all. -/
structure CheckinReq where
  location : JVal
  notes : JVal
  latitude : JVal
  longitude : JVal
  selfie_photo : JVal
deriving DecidableEq, Repr

/-- Response of the check-in endpoint. -/
structure CheckinResp where
  status : Nat
  success : Bool
  message : String
  attendance_id : Option Nat
  distance_from_office : Option ℚ
  within_radius : Option Bool
deriving DecidableEq, Repr

def errCheckinResp (status : Nat) (msg : String) : CheckinResp :=
  ⟨status, false, msg, none, none, none⟩

/-- Body of `/api/attendance/checkin` (`check_in`, lines 546-662) after
authentication.  The radius try-block (lines 597-613) swallows any
coordinate-parse exception and *continues* with the defaults
`distance = 0.0`, `within_radius = True` ("Continue dengan asumsi dalam
radius jika ada error"). -/
def checkin (geoDist : ℚ → ℚ → ℚ → ℚ → ℚ) (off now : Int) (userId : Nat)
    (req : CheckinReq) (st : AttState) : CheckinResp × AttState :=
  let es := dedupEmployee userId st
  let emp := es.1
  let st1 := es.2
  let office_lat := resolveCoord st1.company_lat checkinDefaultLat
  let office_lon := resolveCoord st1.company_lon checkinDefaultLon
  let attempt : Option (ℚ × Bool) :=
    match req.latitude.toFloat?, req.longitude.toFloat? with
    | some ulat, some ulon =>
      some (geoDist ulat ulon office_lat office_lon,
        is_within_radius geoDist req.latitude req.longitude
          (.num office_lat) (.num office_lon) 100000)
    | _, _ => none
  let distance : ℚ := match attempt with | some p => p.1 | none => 0
  let within : Bool := match attempt with | some p => p.2 | none => true
  if attempt.isSome && !within then
    ({ errCheckinResp 400 outsideOfficeMsg with
        distance_from_office := some distance }, st1)
  else
    let wstart := localDayStart off now
    match searchOpenToday emp.id wstart st1.recs with
    | some _ => (errCheckinResp 400 alreadyCheckedInMsg, st1)
    | none =>
      let newRec : AttRec := ⟨st1.nextRecId, emp.id, now, none, "00:00:00",
        req.latitude, req.longitude, req.selfie_photo⟩
      (⟨200, true, "Check-in successful", some st1.nextRecId,
         some distance, some within⟩,
       { st1 with recs := st1.recs ++ [newRec],
                  nextRecId := st1.nextRecId + 1 })

/-- The JSON body of a `/api/attendance/checkout` request (lines 677-680). -/
structure CheckoutReq where
  employee_id : Option Nat
  location : JVal
  notes : JVal
deriving DecidableEq, Repr

/-- Response of the check-out endpoint. -/
structure CheckoutResp where
  status : Nat
  success : Bool
  message : String
  check_out : Option Int
  working_hours : Option String
deriving DecidableEq, Repr

def errCheckoutResp (status : Nat) (msg : String) : CheckoutResp :=
  ⟨status, false, msg, none, none⟩

/-- `search([('employee_id','=',emp),('check_out','=',False)], limit=1,
order='check_in desc')` (lines 696-699): the open record with the latest
`check_in` (first hit wins a tie, matching a stable sort). -/
def pickStep (empId : Nat) (acc : Option AttRec) (r : AttRec) :
    Option AttRec :=
  if r.employee_id == empId && r.check_out.isNone then
    match acc with
    | none => some r
    | some b => if decide (b.check_in < r.check_in) then some r else some b
  else acc

def pickOpenLatest (empId : Nat) (recs : List AttRec) : Option AttRec :=
  recs.foldl (pickStep empId) none

/-- The check-out endpoint's `UPDATE hr_attendance SET check_out=%s,
working_hours=%s WHERE id=%s` (lines 722-725) — note: no
`check_out IS NULL` guard here. -/
def overwriteRec (targetId : Nat) (now : Int) (wh : String) (x : AttRec) :
    AttRec :=
  if x.id == targetId then
    { x with check_out := some now, working_hours := wh }
  else x

/-- Employee resolution of the check-out endpoint (lines 682-690):
the requested `employee_id` if it exists, else the caller's employee. -/
def resolveCheckoutEmployee (userId : Nat) (req : CheckoutReq)
    (st : AttState) : Option Employee :=
  match req.employee_id with
  | some eid =>
    match st.employees.find? (fun e => e.id == eid) with
    | some e => some e
    | none => findEmployee userId st
  | none => findEmployee userId st

/-- Body of `/api/attendance/checkout` (`check_out`, lines 664-749) after
authentication. -/
def checkout (now : Int) (userId : Nat) (req : CheckoutReq)
    (st : AttState) : CheckoutResp × AttState :=
  match resolveCheckoutEmployee userId req st with
  | none => (errCheckoutResp 404 "Employee not found", st)
  | some emp =>
    match pickOpenLatest emp.id st.recs with
    | none => (errCheckoutResp 400 noActiveCheckinMsg, st)
    | some att =>
      let wh := working_hours_str att.check_in now
      (⟨200, true, "Check-out successful", some now, some wh⟩,
       { st with recs := st.recs.map (overwriteRec att.id now wh) })

/-- C7: a toggle request missing the camera image or the GPS coordinates
is rejected with HTTP 400 before the employee lookup/auto-create and
before any record write: the state is returned untouched (lines 330-342
precede lines 344-357 and all writes). -/
theorem toggle_missing_input_rejected
    (geoDist : ℚ → ℚ → ℚ → ℚ → ℚ) (off now : Int) (userId : Nat)
    (req : ToggleReq) (st : AttState)
    (h : req.latitude.truthy = false ∨ req.longitude.truthy = false ∨
      req.camera_image.truthy = false) :
    (toggle geoDist off now userId req st).1.status = 400 ∧
    (toggle geoDist off now userId req st).2 = st := by
  unfold toggle
  rcases h with h | h | h
  · simp [h, errResp]
  · simp [h, errResp]
  · by_cases hlat : req.latitude.truthy = true
    · by_cases hlon : req.longitude.truthy = true
      · simp [hlat, hlon, h, errResp]
      · rw [Bool.not_eq_true] at hlon
        simp [hlon, errResp]
    · rw [Bool.not_eq_true] at hlat
      simp [hlat, errResp]

/-- Closed witness for `toggle_missing_input_rejected`: no GPS at all. -/
theorem toggle_missing_input_rejected_witness :
    (toggle (fun _ _ _ _ => 0) 0 1735761600 1
      ⟨JVal.null, JVal.null, JVal.null, JVal.null, JVal.str "img"⟩
      ⟨[], 0, [⟨1, some 1⟩], 2, none, none⟩).1.status = 400 ∧
    (toggle (fun _ _ _ _ => 0) 0 1735761600 1
      ⟨JVal.null, JVal.null, JVal.null, JVal.null, JVal.str "img"⟩
      ⟨[], 0, [⟨1, some 1⟩], 2, none, none⟩).2 =
      ⟨[], 0, [⟨1, some 1⟩], 2, none, none⟩ :=
  toggle_missing_input_rejected (fun _ _ _ _ => 0) 0 1735761600 1
    ⟨JVal.null, JVal.null, JVal.null, JVal.null, JVal.str "img"⟩
    ⟨[], 0, [⟨1, some 1⟩], 2, none, none⟩ (Or.inl rfl)

/-- C10: latitude or longitude equal to the JSON number 0 or the empty
string is falsy in Python, so `if not latitude or not longitude` rejects
the request as "GPS coordinates are required" (lines 330-338) — the value
0 is indistinguishable from a missing coordinate. -/
theorem toggle_zero_coord_rejected
    (geoDist : ℚ → ℚ → ℚ → ℚ → ℚ) (off now : Int) (userId : Nat)
    (req : ToggleReq) (st : AttState)
    (h : req.latitude = JVal.num 0 ∨ req.latitude = JVal.str "" ∨
      req.longitude = JVal.num 0 ∨ req.longitude = JVal.str "") :
    toggle geoDist off now userId req st = (errResp 400 gpsRequiredMsg, st) := by
  unfold toggle
  have hcond : (!req.latitude.truthy || !req.longitude.truthy) = true := by
    rcases h with h | h | h | h <;> simp [h, JVal.truthy] <;>
      first
      | exact Or.inl rfl
      | exact Or.inr rfl
  simp [hcond]

/-- Closed witness for `toggle_zero_coord_rejected`: a request from the
equator (latitude 0). -/
theorem toggle_zero_coord_rejected_witness :
    toggle (fun _ _ _ _ => 0) 0 1735761600 1
      ⟨JVal.num 0, JVal.num 107, JVal.null, JVal.null, JVal.str "img"⟩
      ⟨[], 0, [⟨1, some 1⟩], 2, none, none⟩ =
    (errResp 400 gpsRequiredMsg, ⟨[], 0, [⟨1, some 1⟩], 2, none, none⟩) :=
  toggle_zero_coord_rejected (fun _ _ _ _ => 0) 0 1735761600 1
    ⟨JVal.num 0, JVal.num 107, JVal.null, JVal.null, JVal.str "img"⟩
    ⟨[], 0, [⟨1, some 1⟩], 2, none, none⟩ (Or.inl rfl)

/-- C4 (amended): the "today" interval the toggle searches is the
UTC-midnight-aligned interval `[D 00:00, D+1 00:00)` taken directly in
the raw UTC timestamp space, `D` being the server's naive local calendar
date; for every server offset and every request instant its start is
86400-aligned while the Asia/Jakarta calendar-day interval starts at
61200 mod 86400, so the two never coincide — no normalization between
the UTC storage zone and the UTC+7 day boundary takes place. -/
theorem toggle_day_window_not_jakarta (off now : Int) :
    localDayStart off now % 86400 = 0 ∧
    jakartaDayStartUtc now % 86400 = 61200 ∧
    localDayStart off now ≠ jakartaDayStartUtc now := by
  unfold localDayStart jakartaDayStartUtc jakartaOffset
  refine ⟨by omega, by omega, by omega⟩

/-- Counterexample to C4 as stated: at the instant 2025-01-01T20:00:00Z
(= 2025-01-02 03:00 Asia/Jakarta, epoch 1735761600) with a UTC server
clock, the toggle searches `[2025-01-01T00:00Z, 2025-01-02T00:00Z)`
(start 1735689600), not the Jakarta-day interval (start 1735750800):
2025-01-02T05:00Z (1735794000) falls on the same Jakarta calendar day as
the request but outside the searched window, while 2025-01-01T02:00Z
(1735696800) is inside the searched window but on a different Jakarta
calendar day. -/
theorem toggle_day_window_counterexample :
    localDayStart 0 1735761600 = 1735689600 ∧
    jakartaDayStartUtc 1735761600 = 1735750800 ∧
    sameJakartaDay 1735761600 1735794000 = true ∧
    (decide (localDayStart 0 1735761600 ≤ 1735794000) &&
      decide ((1735794000 : Int) < localDayStart 0 1735761600 + 86400)) = false ∧
    sameJakartaDay 1735761600 1735696800 = false ∧
    (decide (localDayStart 0 1735761600 ≤ 1735696800) &&
      decide ((1735696800 : Int) < localDayStart 0 1735761600 + 86400)) = true := by
  decide

section ToggleBranches

variable (geoDist : ℚ → ℚ → ℚ → ℚ → ℚ) (off now : Int) (userId : Nat)
variable (req : ToggleReq) (st : AttState) (emp : Employee) (ulat ulon : ℚ)

/-- A valid toggle request with no record in the today window creates a
fresh record with `check_in = now` and the captured GPS/photo. -/
theorem toggle_branch_checkin
    (hlat : req.latitude.truthy = true) (hlon : req.longitude.truthy = true)
    (hcam : req.camera_image.truthy = true)
    (hplat : req.latitude.toFloat? = some ulat)
    (hplon : req.longitude.toFloat? = some ulon)
    (hemp : findEmployee userId st = some emp)
    (hin : geoDist ulat ulon (resolveCoord st.company_lat toggleDefaultLat)
      (resolveCoord st.company_lon toggleDefaultLon) ≤ 100000)
    (hsearch : searchToday emp.id (localDayStart off now) st.recs = none) :
    toggle geoDist off now userId req st =
      (⟨200, true, "Check in successful", some "check_in", some true,
         some now, none,
         some (geoDist ulat ulon
           (resolveCoord st.company_lat toggleDefaultLat)
           (resolveCoord st.company_lon toggleDefaultLon))⟩,
       { st with recs := st.recs ++ [⟨st.nextRecId, emp.id, now, none,
           "00:00:00", req.latitude, req.longitude, req.camera_image⟩],
                 nextRecId := st.nextRecId + 1 }) := by
  have hw : is_within_radius geoDist req.latitude req.longitude
      (.num (resolveCoord st.company_lat toggleDefaultLat))
      (.num (resolveCoord st.company_lon toggleDefaultLon)) 100000 = true := by
    unfold is_within_radius
    rw [hplat, hplon]
    simpa [JVal.toFloat?] using hin
  unfold toggle getOrCreateEmployee
  rw [hemp]
  simp only [hlat, hlon, hcam, Bool.not_true, Bool.or_self, Bool.false_eq_true,
    if_false]
  rw [hplat, hplon]
  simp only [hw, Bool.not_true, Bool.false_eq_true, if_false]
  rw [hsearch]

end ToggleBranches

section ToggleBranches2

variable (geoDist : ℚ → ℚ → ℚ → ℚ → ℚ) (off now : Int) (userId : Nat)
variable (req : ToggleReq) (st : AttState) (emp : Employee) (ulat ulon : ℚ)

/-- A valid toggle request finding an open record in the today window
closes it: `check_out := now`, `working_hours` computed, and the response
reports a check-out. -/
theorem toggle_branch_checkout
    (hlat : req.latitude.truthy = true) (hlon : req.longitude.truthy = true)
    (hcam : req.camera_image.truthy = true)
    (hplat : req.latitude.toFloat? = some ulat)
    (hplon : req.longitude.toFloat? = some ulon)
    (hemp : findEmployee userId st = some emp)
    (hin : geoDist ulat ulon (resolveCoord st.company_lat toggleDefaultLat)
      (resolveCoord st.company_lon toggleDefaultLon) ≤ 100000)
    (r : AttRec)
    (hsearch : searchToday emp.id (localDayStart off now) st.recs = some r)
    (hopen : r.check_out = none) :
    toggle geoDist off now userId req st =
      (⟨200, true, "Check out successful", some "check_out", some false,
         some now, some (working_hours_str r.check_in now),
         some (geoDist ulat ulon
           (resolveCoord st.company_lat toggleDefaultLat)
           (resolveCoord st.company_lon toggleDefaultLon))⟩,
       { st with recs := st.recs.map (closeRec r.id now (working_hours_str r.check_in now)) }) := by
  have hw : is_within_radius geoDist req.latitude req.longitude
      (.num (resolveCoord st.company_lat toggleDefaultLat))
      (.num (resolveCoord st.company_lon toggleDefaultLon)) 100000 = true := by
    unfold is_within_radius
    rw [hplat, hplon]
    simpa [JVal.toFloat?] using hin
  have hmem : r ∈ st.recs := by
    have := List.mem_of_find?_eq_some (p := todaySearchPred emp.id
      (localDayStart off now)) hsearch
    exact this
  have hmemf : r ∈ st.recs.filter (fun x => x.id == r.id && x.check_out.isNone) :=
    List.mem_filter.mpr ⟨hmem, by simp [hopen]⟩
  have hpos : ((st.recs.filter (fun x =>
      x.id == r.id && x.check_out.isNone)).length == 0) = false := by
    have hlen := List.length_pos_of_mem hmemf
    exact beq_eq_false_iff_ne.mpr (by omega)
  unfold toggle getOrCreateEmployee
  rw [hemp]
  simp only [hlat, hlon, hcam, Bool.not_true, Bool.or_self, Bool.false_eq_true,
    if_false]
  rw [hplat, hplon]
  simp only [hw, Bool.not_true, Bool.false_eq_true, if_false]
  rw [hsearch]
  simp only [hopen, hpos, Bool.false_eq_true, if_false]
  try rfl

/-- A toggle request finding a closed record in the today window is
rejected with HTTP 400 and leaves the state untouched. -/
theorem toggle_branch_closed
    (hlat : req.latitude.truthy = true) (hlon : req.longitude.truthy = true)
    (hcam : req.camera_image.truthy = true)
    (hplat : req.latitude.toFloat? = some ulat)
    (hplon : req.longitude.toFloat? = some ulon)
    (hemp : findEmployee userId st = some emp)
    (hin : geoDist ulat ulon (resolveCoord st.company_lat toggleDefaultLat)
      (resolveCoord st.company_lon toggleDefaultLon) ≤ 100000)
    (r : AttRec) (t : Int)
    (hsearch : searchToday emp.id (localDayStart off now) st.recs = some r)
    (hclosed : r.check_out = some t) :
    toggle geoDist off now userId req st = (errResp 400 alreadyDoneMsg, st) := by
  have hw : is_within_radius geoDist req.latitude req.longitude
      (.num (resolveCoord st.company_lat toggleDefaultLat))
      (.num (resolveCoord st.company_lon toggleDefaultLon)) 100000 = true := by
    unfold is_within_radius
    rw [hplat, hplon]
    simpa [JVal.toFloat?] using hin
  unfold toggle getOrCreateEmployee
  rw [hemp]
  simp only [hlat, hlon, hcam, Bool.not_true, Bool.or_self, Bool.false_eq_true,
    if_false]
  rw [hplat, hplon]
  simp only [hw, Bool.not_true, Bool.false_eq_true, if_false]
  rw [hsearch]
  simp only [hclosed]
  try rfl

end ToggleBranches2

/-- A constant distance function standing in for `geopy` in closed
evaluations (caller at the office: distance 0). -/
def geoDistZero : ℚ → ℚ → ℚ → ℚ → ℚ := fun _ _ _ _ => 0

/-- Demonstration fixtures for closed witnesses. -/
def demoEmp : Employee := ⟨1, some 1⟩

def demoSt : AttState := ⟨[], 0, [demoEmp], 2, none, none⟩

def demoReq : ToggleReq := ⟨.num 1, .num 2, .null, .null, .str "img"⟩

/-- C1: the toggle is a two-state machine per employee per (searched) day
under sequential execution: with a valid authenticated request (GPS and
photo present and parseable, inside the radius, employee on file), (a) no
record in the today window → a record with `check_in = now`, the GPS
strings and the photo is created and the response is action `check_in`
with `is_checked_in = true`; (b) an open record → `check_out := now`,
`working_hours` computed, response action `check_out` with
`is_checked_in = false`; (c) a closed record → HTTP 400, state
unchanged. -/
theorem toggle_two_state_machine
    (geoDist : ℚ → ℚ → ℚ → ℚ → ℚ) (off now : Int) (userId : Nat)
    (req : ToggleReq) (st : AttState) (emp : Employee) (ulat ulon : ℚ)
    (hlat : req.latitude.truthy = true) (hlon : req.longitude.truthy = true)
    (hcam : req.camera_image.truthy = true)
    (hplat : req.latitude.toFloat? = some ulat)
    (hplon : req.longitude.toFloat? = some ulon)
    (hemp : findEmployee userId st = some emp)
    (hin : geoDist ulat ulon (resolveCoord st.company_lat toggleDefaultLat)
      (resolveCoord st.company_lon toggleDefaultLon) ≤ 100000) :
    (searchToday emp.id (localDayStart off now) st.recs = none →
      toggle geoDist off now userId req st =
        (⟨200, true, "Check in successful", some "check_in", some true,
           some now, none,
           some (geoDist ulat ulon
             (resolveCoord st.company_lat toggleDefaultLat)
             (resolveCoord st.company_lon toggleDefaultLon))⟩,
         { st with recs := st.recs ++ [⟨st.nextRecId, emp.id, now, none,
             "00:00:00", req.latitude, req.longitude, req.camera_image⟩],
                   nextRecId := st.nextRecId + 1 })) ∧
    (∀ r : AttRec, searchToday emp.id (localDayStart off now) st.recs = some r →
      r.check_out = none →
      toggle geoDist off now userId req st =
        (⟨200, true, "Check out successful", some "check_out", some false,
           some now, some (working_hours_str r.check_in now),
           some (geoDist ulat ulon
             (resolveCoord st.company_lat toggleDefaultLat)
             (resolveCoord st.company_lon toggleDefaultLon))⟩,
         { st with recs := st.recs.map (closeRec r.id now (working_hours_str r.check_in now)) })) ∧
    (∀ (r : AttRec) (t : Int),
      searchToday emp.id (localDayStart off now) st.recs = some r →
      r.check_out = some t →
      toggle geoDist off now userId req st = (errResp 400 alreadyDoneMsg, st)) :=
  ⟨fun hsearch => toggle_branch_checkin geoDist off now userId req st emp
      ulat ulon hlat hlon hcam hplat hplon hemp hin hsearch,
   fun r hsearch hopen => toggle_branch_checkout geoDist off now userId req
      st emp ulat ulon hlat hlon hcam hplat hplon hemp hin r hsearch hopen,
   fun r t hsearch hclosed => toggle_branch_closed geoDist off now userId req
      st emp ulat ulon hlat hlon hcam hplat hplon hemp hin r t hsearch hclosed⟩

/-- Closed witness for `toggle_two_state_machine` at a concrete request
(employee 1, empty record store, caller at the office). -/
theorem toggle_two_state_machine_witness :
    (searchToday demoEmp.id (localDayStart 0 1735761600) demoSt.recs = none →
      toggle geoDistZero 0 1735761600 1 demoReq demoSt =
        (⟨200, true, "Check in successful", some "check_in", some true,
           some 1735761600, none,
           some (geoDistZero 1 2
             (resolveCoord demoSt.company_lat toggleDefaultLat)
             (resolveCoord demoSt.company_lon toggleDefaultLon))⟩,
         { demoSt with recs := demoSt.recs ++ [⟨demoSt.nextRecId, demoEmp.id,
             1735761600, none, "00:00:00", demoReq.latitude, demoReq.longitude,
             demoReq.camera_image⟩],
                       nextRecId := demoSt.nextRecId + 1 })) ∧
    (∀ r : AttRec,
      searchToday demoEmp.id (localDayStart 0 1735761600) demoSt.recs = some r →
      r.check_out = none →
      toggle geoDistZero 0 1735761600 1 demoReq demoSt =
        (⟨200, true, "Check out successful", some "check_out", some false,
           some 1735761600, some (working_hours_str r.check_in 1735761600),
           some (geoDistZero 1 2
             (resolveCoord demoSt.company_lat toggleDefaultLat)
             (resolveCoord demoSt.company_lon toggleDefaultLon))⟩,
         { demoSt with recs := demoSt.recs.map (closeRec r.id 1735761600 (working_hours_str r.check_in 1735761600)) })) ∧
    (∀ (r : AttRec) (t : Int),
      searchToday demoEmp.id (localDayStart 0 1735761600) demoSt.recs = some r →
      r.check_out = some t →
      toggle geoDistZero 0 1735761600 1 demoReq demoSt =
        (errResp 400 alreadyDoneMsg, demoSt)) :=
  toggle_two_state_machine geoDistZero 0 1735761600 1 demoReq demoSt demoEmp
    1 2 (by decide) (by decide) (by decide) rfl rfl rfl (by norm_num [geoDistZero])

/-- C3: for every check-in/check-out pair (check-out not before check-in),
`working_hours` is the elapsed duration formatted as zero-padded
`HH:MM:SS` with integer truncation; in particular check-in
2025-01-01T09:00:00Z (epoch 1735722000) and check-out 2025-01-01T17:30:15Z
(epoch 1735752615) give "08:30:15". -/
theorem working_hours_matches_spec (ci co : Int) (h : ci ≤ co) :
    working_hours_str ci co = specHHMMSS (co - ci).toNat ∧
    working_hours_str 1735722000 1735752615 = "08:30:15" :=
  ⟨working_hours_str_eq_spec ci co h, by rfl⟩

/-- Closed witness for `working_hours_matches_spec` at the spec's own
example pair. -/
theorem working_hours_matches_spec_witness :
    working_hours_str 1735722000 1735752615 =
      specHHMMSS ((1735752615 : Int) - 1735722000).toNat ∧
    working_hours_str 1735722000 1735752615 = "08:30:15" :=
  working_hours_matches_spec 1735722000 1735752615 (by decide)

/-- C5: `_is_within_radius` accepts exactly when the geodesic distance is
at most the radius argument (for parseable numeric coordinates);
coordinates equal to the office give distance 0 and are accepted for any
non-negative radius; a measured distance of 3000 m against a 2000 m
radius is rejected; and when the toggle's radius check fails the caller
gets HTTP 400 with the measured distance surfaced and no state change. -/
theorem geofence_accept_iff
    (geoDist : ℚ → ℚ → ℚ → ℚ → ℚ) (hself : ∀ a b, geoDist a b a b = 0)
    (ulat ulon olat olon radius : ℚ) :
    (is_within_radius geoDist (.num ulat) (.num ulon) (.num olat) (.num olon)
        radius = true ↔ geoDist ulat ulon olat olon ≤ radius) ∧
    (0 ≤ radius →
      is_within_radius geoDist (.num olat) (.num olon) (.num olat) (.num olon)
        radius = true) ∧
    (geoDist ulat ulon olat olon = 3000 →
      is_within_radius geoDist (.num ulat) (.num ulon) (.num olat) (.num olon)
        2000 = false) ∧
    (∀ (off now : Int) (userId : Nat) (req : ToggleReq) (st : AttState)
        (emp : Employee),
      req.latitude.truthy = true → req.longitude.truthy = true →
      req.camera_image.truthy = true →
      req.latitude.toFloat? = some ulat →
      req.longitude.toFloat? = some ulon →
      findEmployee userId st = some emp →
      resolveCoord st.company_lat toggleDefaultLat = olat →
      resolveCoord st.company_lon toggleDefaultLon = olon →
      ¬ geoDist ulat ulon olat olon ≤ 100000 →
      (toggle geoDist off now userId req st).1.status = 400 ∧
      (toggle geoDist off now userId req st).1.distance_from_office =
        some (geoDist ulat ulon olat olon) ∧
      (toggle geoDist off now userId req st).2 = st) := by
  refine ⟨?_, ?_, ?_, ?_⟩
  · unfold is_within_radius
    simp [JVal.toFloat?]
  · intro hr
    unfold is_within_radius
    simp [JVal.toFloat?, hself, hr]
  · intro h3
    unfold is_within_radius
    simp only [JVal.toFloat?]
    rw [h3]
    norm_num
  · intro off now userId req st emp hlat hlon hcam hplat hplon hemp holat
      holon hout
    have hw : is_within_radius geoDist req.latitude req.longitude
        (.num (resolveCoord st.company_lat toggleDefaultLat))
        (.num (resolveCoord st.company_lon toggleDefaultLon)) 100000 = false := by
      unfold is_within_radius
      rw [hplat, hplon]
      simp only [JVal.toFloat?, holat, holon]
      simpa using hout
    unfold toggle getOrCreateEmployee
    rw [hemp]
    simp only [hlat, hlon, hcam, Bool.not_true, Bool.or_self,
      Bool.false_eq_true, if_false]
    rw [hplat, hplon]
    simp only [hw, Bool.not_false, if_true]
    rw [holat, holon]
    exact ⟨by trivial, by trivial, by trivial⟩

/-- An L1 stand-in distance satisfying `d(x, x) = 0`, for closed
evaluation of the geofence theorem. -/
def geoDistL1 : ℚ → ℚ → ℚ → ℚ → ℚ := fun a b c d => |a - c| + |b - d|

/-- Closed witness for `geofence_accept_iff`: office at the origin,
caller 3000 m away (L1), radius 5. -/
theorem geofence_accept_iff_witness :
    (is_within_radius geoDistL1 (.num 3000) (.num 0) (.num 0) (.num 0)
        5 = true ↔ geoDistL1 3000 0 0 0 ≤ 5) ∧
    (0 ≤ (5 : ℚ) →
      is_within_radius geoDistL1 (.num 0) (.num 0) (.num 0) (.num 0)
        5 = true) ∧
    (geoDistL1 3000 0 0 0 = 3000 →
      is_within_radius geoDistL1 (.num 3000) (.num 0) (.num 0) (.num 0)
        2000 = false) ∧
    (∀ (off now : Int) (userId : Nat) (req : ToggleReq) (st : AttState)
        (emp : Employee),
      req.latitude.truthy = true → req.longitude.truthy = true →
      req.camera_image.truthy = true →
      req.latitude.toFloat? = some 3000 →
      req.longitude.toFloat? = some 0 →
      findEmployee userId st = some emp →
      resolveCoord st.company_lat toggleDefaultLat = 0 →
      resolveCoord st.company_lon toggleDefaultLon = 0 →
      ¬ geoDistL1 3000 0 0 0 ≤ 100000 →
      (toggle geoDistL1 off now userId req st).1.status = 400 ∧
      (toggle geoDistL1 off now userId req st).1.distance_from_office =
        some (geoDistL1 3000 0 0 0) ∧
      (toggle geoDistL1 off now userId req st).2 = st) :=
  geofence_accept_iff geoDistL1 (fun a b => by simp [geoDistL1]) 3000 0 0 0 5

/-- C6 (amended): a coordinate that fails to parse blocks the toggle
(caught and answered with HTTP 500 "Error validating location", no
record touched — fail closed), but the check-in endpoint catches the
same failure and *continues* with `within_radius = True` ("Continue
dengan asumsi dalam radius jika ada error", lines 611-613), creating the
attendance record — fail open. -/
theorem coord_parse_failure_behavior
    (geoDist : ℚ → ℚ → ℚ → ℚ → ℚ) (off now : Int) (userId : Nat)
    (st : AttState) (emp : Employee) :
    (∀ req : ToggleReq,
      req.latitude.truthy = true → req.longitude.truthy = true →
      req.camera_image.truthy = true →
      req.latitude.toFloat? = none ∨ req.longitude.toFloat? = none →
      findEmployee userId st = some emp →
      toggle geoDist off now userId req st = (errResp 500 errValidatingMsg, st)) ∧
    (∀ req : CheckinReq,
      req.latitude.toFloat? = none →
      dedupEmployee userId st = (emp, st) →
      searchOpenToday emp.id (localDayStart off now) st.recs = none →
      checkin geoDist off now userId req st =
        (⟨200, true, "Check-in successful", some st.nextRecId, some 0, some true⟩,
         { st with recs := st.recs ++ [⟨st.nextRecId, emp.id, now, none,
             "00:00:00", req.latitude, req.longitude, req.selfie_photo⟩],
                   nextRecId := st.nextRecId + 1 })) := by
  constructor
  · intro req hlat hlon hcam hpf hemp
    unfold toggle getOrCreateEmployee
    rw [hemp]
    simp only [hlat, hlon, hcam, Bool.not_true, Bool.or_self,
      Bool.false_eq_true, if_false]
    rcases hpf with hpf | hpf
    · rw [hpf]
    · rw [hpf]
      rcases hplat : req.latitude.toFloat? with _ | v <;> simp
  · intro req hpf hdedup hsearch
    unfold checkin
    rw [hdedup]
    simp only [hpf]
    rcases hplon : req.longitude.toFloat? with _ | v <;>
      simp only [Option.isSome_none, Bool.false_and, Bool.false_eq_true,
        if_false] <;>
      try rw [hsearch]

/-- Counterexample to C6 as stated: a check-in request whose latitude is
the unparseable string "abc" is *not* blocked — the endpoint answers 200
and creates the attendance record (with the raw string stored). -/
theorem coord_parse_failure_counterexample :
    (JVal.str "abc").toFloat? = none ∧
    (checkin geoDistZero 0 1735761600 1
      ⟨JVal.null, JVal.null, JVal.str "abc", JVal.str "1.0", JVal.str "img"⟩
      demoSt).1.status = 200 ∧
    (checkin geoDistZero 0 1735761600 1
      ⟨JVal.null, JVal.null, JVal.str "abc", JVal.str "1.0", JVal.str "img"⟩
      demoSt).2.recs.length = 1 := by
  refine ⟨rfl, rfl, rfl⟩

/-- Closed witness for `coord_parse_failure_behavior`. -/
theorem coord_parse_failure_behavior_witness :
    (∀ req : ToggleReq,
      req.latitude.truthy = true → req.longitude.truthy = true →
      req.camera_image.truthy = true →
      req.latitude.toFloat? = none ∨ req.longitude.toFloat? = none →
      findEmployee 1 demoSt = some demoEmp →
      toggle geoDistZero 0 1735761600 1 req demoSt =
        (errResp 500 errValidatingMsg, demoSt)) ∧
    (∀ req : CheckinReq,
      req.latitude.toFloat? = none →
      dedupEmployee 1 demoSt = (demoEmp, demoSt) →
      searchOpenToday demoEmp.id (localDayStart 0 1735761600) demoSt.recs = none →
      checkin geoDistZero 0 1735761600 1 req demoSt =
        (⟨200, true, "Check-in successful", some demoSt.nextRecId, some 0,
           some true⟩,
         { demoSt with recs := demoSt.recs ++ [⟨demoSt.nextRecId, demoEmp.id,
             1735761600, none, "00:00:00", req.latitude, req.longitude,
             req.selfie_photo⟩],
                       nextRecId := demoSt.nextRecId + 1 })) :=
  coord_parse_failure_behavior geoDistZero 0 1735761600 1 demoSt demoEmp

/-!
## The one-open-record-per-day invariant (C2)
-/

/-- UTC calendar day index of a stored timestamp. -/
def utcDay (t : Int) : Int := t / 86400

/-- Open records (`check_out` unset) of employee `empId` whose `check_in`
falls on UTC calendar day `k`. -/
def openOnUtcDay (empId : Nat) (k : Int) (recs : List AttRec) : Nat :=
  (recs.filter (fun r => r.employee_id == empId && r.check_out.isNone &&
    utcDay r.check_in == k)).length

/-- Modelled from the spec (C2's "calendar day ... evaluated in a fixed
local time zone"): open records of an employee on a given Asia/Jakarta
calendar day. -/
def openOnJakartaDay (empId : Nat) (k : Int) (recs : List AttRec) : Nat :=
  (recs.filter (fun r => r.employee_id == empId && r.check_out.isNone &&
    (r.check_in + jakartaOffset) / 86400 == k)).length

/-- A closed record survives an operation untouched (same id, same
fields, still in the store). -/
def closedPreserved (recs recs' : List AttRec) : Prop :=
  ∀ r ∈ recs, r.check_out.isSome = true → r ∈ recs'

theorem openOnUtcDay_map_le (empId : Nat) (k : Int) (recs : List AttRec)
    (f : AttRec → AttRec)
    (hf : ∀ r, f r = r ∨ (f r).check_out.isSome = true) :
    openOnUtcDay empId k (recs.map f) ≤ openOnUtcDay empId k recs := by
  induction recs with
  | nil => simp [openOnUtcDay]
  | cons hd tl ih =>
    unfold openOnUtcDay at *
    simp only [List.map_cons, List.filter_cons]
    rcases hf hd with h | h
    · rw [h]
      by_cases hp : (hd.employee_id == empId && hd.check_out.isNone &&
          (utcDay hd.check_in == k)) = true
      · simp only [hp, if_true, List.length_cons]
        omega
      · simp only [Bool.not_eq_true] at hp
        simp only [hp, Bool.false_eq_true, if_false]
        exact ih
    · have hfalse : ((f hd).employee_id == empId && (f hd).check_out.isNone &&
          (utcDay (f hd).check_in == k)) = false := by
        rcases hb : (f hd).check_out with _ | v
        · rw [hb] at h; simp at h
        · simp [hb]
      simp only [hfalse, Bool.false_eq_true, if_false]
      by_cases hp : (hd.employee_id == empId && hd.check_out.isNone &&
          (utcDay hd.check_in == k)) = true
      · simp only [hp, if_true, List.length_cons]
        omega
      · simp only [Bool.not_eq_true] at hp
        simp only [hp, Bool.false_eq_true, if_false]
        exact ih

theorem openOnUtcDay_append (empId : Nat) (k : Int) (recs : List AttRec)
    (r : AttRec) :
    openOnUtcDay empId k (recs ++ [r]) = openOnUtcDay empId k recs +
      (if (r.employee_id == empId && r.check_out.isNone &&
        (utcDay r.check_in == k)) = true then 1 else 0) := by
  unfold openOnUtcDay
  rw [List.filter_append, List.length_append]
  by_cases hp : (r.employee_id == empId && r.check_out.isNone &&
      (utcDay r.check_in == k)) = true
  · simp [hp]
  · simp only [Bool.not_eq_true] at hp
    simp [hp]

/-- With a UTC server clock the toggle's searched window is exactly the
UTC calendar day of the request instant. -/
theorem todayWindow_iff_utcDay (now t : Int) :
    (localDayStart 0 now ≤ t ∧ t < localDayStart 0 now + 86400) ↔
      utcDay t = utcDay now := by
  unfold localDayStart utcDay
  omega

/-- Same, for the check-in endpoint's inclusive window (integer-second
timestamps). -/
theorem openTodayWindow_iff_utcDay (now t : Int) :
    (localDayStart 0 now ≤ t ∧ t ≤ localDayStart 0 now + 86399) ↔
      utcDay t = utcDay now := by
  unfold localDayStart utcDay
  omega

/-- If the toggle found no record at all in today's window, there is no
open record of that employee on today's UTC day (UTC server clock). -/
theorem openOnUtcDay_zero_of_searchToday_none (empId : Nat) (now : Int)
    (recs : List AttRec)
    (h : searchToday empId (localDayStart 0 now) recs = none) :
    openOnUtcDay empId (utcDay now) recs = 0 := by
  unfold openOnUtcDay
  rw [List.length_eq_zero, List.filter_eq_nil_iff]
  intro r hr
  have hnp := List.find?_eq_none.mp h r hr
  simp only [todaySearchPred, Bool.and_eq_true, decide_eq_true_eq,
    not_and] at hnp
  intro hcount
  simp only [Bool.and_eq_true, beq_iff_eq] at hcount
  obtain ⟨⟨hemp, _⟩, hday⟩ := hcount
  have hw := (todayWindow_iff_utcDay now r.check_in).mpr hday
  exact hnp ⟨by simp [hemp], hw.1⟩ hw.2

/-- If the check-in endpoint found no open record in today's window,
there is no open record of that employee on today's UTC day. -/
theorem openOnUtcDay_zero_of_searchOpenToday_none (empId : Nat) (now : Int)
    (recs : List AttRec)
    (h : searchOpenToday empId (localDayStart 0 now) recs = none) :
    openOnUtcDay empId (utcDay now) recs = 0 := by
  unfold openOnUtcDay
  rw [List.length_eq_zero, List.filter_eq_nil_iff]
  intro r hr
  have hnp := List.find?_eq_none.mp h r hr
  simp only [openTodayPred, Bool.and_eq_true, decide_eq_true_eq,
    not_and] at hnp
  intro hcount
  simp only [Bool.and_eq_true, beq_iff_eq] at hcount
  obtain ⟨⟨hemp, hopen⟩, hday⟩ := hcount
  have hw := (openTodayWindow_iff_utcDay now r.check_in).mpr hday
  exact hnp ⟨⟨by simp [hemp], hopen⟩, hw.1⟩ hw.2

theorem pickStep_foldl_some (empId : Nat) (l : List AttRec) :
    ∀ (acc : Option AttRec) (r : AttRec),
      l.foldl (pickStep empId) acc = some r →
      acc = some r ∨ (r ∈ l ∧ r.employee_id = empId ∧ r.check_out = none) := by
  induction l with
  | nil => exact fun acc r h => Or.inl h
  | cons hd tl ih =>
    intro acc r h
    rw [List.foldl_cons] at h
    rcases ih (pickStep empId acc hd) r h with hacc | hmem
    · by_cases hp : (hd.employee_id == empId && hd.check_out.isNone) = true
      · have hdprops : hd.employee_id = empId ∧ hd.check_out = none := by
          simp only [Bool.and_eq_true, beq_iff_eq,
            Option.isNone_iff_eq_none] at hp
          exact hp
        rcases acc with _ | b
        · rw [show pickStep empId none hd = some hd by
            unfold pickStep; rw [if_pos hp]] at hacc
          cases hacc
          exact Or.inr ⟨List.mem_cons_self _ _, hdprops.1, hdprops.2⟩
        · by_cases hlt : decide (b.check_in < hd.check_in) = true
          · rw [show pickStep empId (some b) hd = some hd by
              unfold pickStep; rw [if_pos hp]; simp [hlt]] at hacc
            cases hacc
            exact Or.inr ⟨List.mem_cons_self _ _, hdprops.1, hdprops.2⟩
          · rw [show pickStep empId (some b) hd = some b by
              unfold pickStep; rw [if_pos hp]; simp [hlt]] at hacc
            exact Or.inl hacc
      · rw [show pickStep empId acc hd = acc by
          unfold pickStep; rw [if_neg hp]] at hacc
        exact Or.inl hacc
    · exact Or.inr ⟨List.mem_cons_of_mem _ hmem.1, hmem.2⟩

theorem pickOpenLatest_spec (empId : Nat) (recs : List AttRec) (r : AttRec)
    (h : pickOpenLatest empId recs = some r) :
    r ∈ recs ∧ r.employee_id = empId ∧ r.check_out = none := by
  rcases pickStep_foldl_some empId recs none r h with h' | h'
  · exact absurd h' (by simp)
  · exact h'

/-- The check-out endpoint preserves the open-per-UTC-day bound and never
touches a closed record (its search targets an open record only; with
unique ids the id-keyed SQL update cannot hit a closed row). -/
theorem checkout_preserves (now : Int) (userId : Nat) (oreq : CheckoutReq)
    (st : AttState) (hids : (st.recs.map AttRec.id).Nodup)
    (hinv : ∀ empId k, openOnUtcDay empId k st.recs ≤ 1) :
    (∀ empId k,
      openOnUtcDay empId k (checkout now userId oreq st).2.recs ≤ 1) ∧
    closedPreserved st.recs (checkout now userId oreq st).2.recs := by
  unfold checkout
  split
  · exact ⟨hinv, fun r hr _ => hr⟩
  · rename_i emp hemp
    split
    · exact ⟨hinv, fun r hr _ => hr⟩
    · rename_i att hpick
      have hattr := pickOpenLatest_spec emp.id st.recs att hpick
      constructor
      · intro empId k
        refine le_trans (openOnUtcDay_map_le empId k st.recs _ ?_)
          (hinv empId k)
        intro r
        unfold overwriteRec
        by_cases h : (r.id == att.id) = true
        · right
          simp [h]
        · left
          simp only [h, Bool.false_eq_true, if_false]
      · intro r hr hclosed
        have hne : r.id ≠ att.id := by
          intro heq
          have hrne : r ≠ att := by
            intro h'
            rw [h', hattr.2.2] at hclosed
            simp at hclosed
          exact hrne (List.inj_on_of_nodup_map hids hr hattr.1 heq)
        have hfix : overwriteRec att.id now
            (working_hours_str att.check_in now) r = r := by
          unfold overwriteRec
          simp [hne]
        have := List.mem_map_of_mem
          (overwriteRec att.id now (working_hours_str att.check_in now)) hr
        rwa [hfix] at this

theorem getOrCreateEmployee_recs (userId : Nat) (st : AttState) :
    (getOrCreateEmployee userId st).2.recs = st.recs ∧
    (getOrCreateEmployee userId st).2.nextRecId = st.nextRecId := by
  unfold getOrCreateEmployee
  rcases findEmployee userId st with _ | e <;> simp

theorem dedupEmployee_recs (userId : Nat) (st : AttState) :
    (dedupEmployee userId st).2.recs = st.recs ∧
    (dedupEmployee userId st).2.nextRecId = st.nextRecId := by
  unfold dedupEmployee
  rcases hf : st.employees.filter (fun e => e.user_id == some userId) with
    _ | ⟨e, rest⟩ <;> simp only [hf]
  · exact ⟨by trivial, by trivial⟩
  · by_cases h : rest.isEmpty <;> simp [h]

theorem closeRec_fix_or_closed (targetId : Nat) (now : Int) (wh : String) :
    ∀ x : AttRec, closeRec targetId now wh x = x ∨
      (closeRec targetId now wh x).check_out.isSome = true := by
  intro x
  unfold closeRec
  by_cases h : (x.id == targetId && x.check_out.isNone) = true
  · right
    simp [h]
  · left
    simp only [h, Bool.false_eq_true, if_false]

theorem closeRec_fixes_closed (targetId : Nat) (now : Int) (wh : String)
    (r : AttRec) (h : r.check_out.isSome = true) :
    closeRec targetId now wh r = r := by
  unfold closeRec
  rcases hc : r.check_out with _ | v
  · rw [hc] at h
    simp at h
  · simp [hc]

/-- The toggle (UTC server clock) preserves the open-per-UTC-day bound
and never modifies a closed record. -/
theorem toggle_preserves (geoDist : ℚ → ℚ → ℚ → ℚ → ℚ) (now : Int)
    (userId : Nat) (req : ToggleReq) (st : AttState)
    (hinv : ∀ empId k, openOnUtcDay empId k st.recs ≤ 1) :
    (∀ empId k,
      openOnUtcDay empId k (toggle geoDist 0 now userId req st).2.recs ≤ 1) ∧
    closedPreserved st.recs (toggle geoDist 0 now userId req st).2.recs := by
  have hg := getOrCreateEmployee_recs userId st
  unfold toggle
  split
  · exact ⟨hinv, fun r hr _ => hr⟩
  split
  · exact ⟨hinv, fun r hr _ => hr⟩
  dsimp only
  split
  · rename_i ulat ulon hplat hplon
    split
    · rw [hg.1]
      exact ⟨hinv, fun r hr _ => hr⟩
    · split
      · rename_i r hsearch
        split
        · rename_i hopen
          split
          · rw [hg.1]
            exact ⟨hinv, fun r' hr' _ => hr'⟩
          · dsimp only
            rw [hg.1]
            constructor
            · intro empId k
              exact le_trans (openOnUtcDay_map_le empId k st.recs _
                (closeRec_fix_or_closed _ _ _)) (hinv empId k)
            · intro r' hr' hclosed
              have hfix := closeRec_fixes_closed r.id now
                (working_hours_str r.check_in now) r' hclosed
              have := List.mem_map_of_mem
                (closeRec r.id now (working_hours_str r.check_in now)) hr'
              rwa [hfix] at this
        · rw [hg.1]
          exact ⟨hinv, fun r' hr' _ => hr'⟩
      · rename_i hsearch
        dsimp only
        rw [hg.1, hg.2]
        rw [hg.1] at hsearch
        constructor
        · intro empId k
          rw [openOnUtcDay_append]
          by_cases hp : (((⟨st.nextRecId, (getOrCreateEmployee userId st).1.id,
              now, none, "00:00:00", req.latitude, req.longitude,
              req.camera_image⟩ : AttRec).employee_id == empId &&
              (⟨st.nextRecId, (getOrCreateEmployee userId st).1.id, now, none,
              "00:00:00", req.latitude, req.longitude,
              req.camera_image⟩ : AttRec).check_out.isNone &&
              (utcDay (⟨st.nextRecId, (getOrCreateEmployee userId st).1.id,
              now, none, "00:00:00", req.latitude, req.longitude,
              req.camera_image⟩ : AttRec).check_in == k)) = true)
          · simp only [hp, if_true]
            simp only [Bool.and_eq_true, beq_iff_eq] at hp
            obtain ⟨⟨he, _⟩, hk⟩ := hp
            have h0 : openOnUtcDay empId k st.recs = 0 := by
              rw [← he, ← hk]
              exact openOnUtcDay_zero_of_searchToday_none _ now st.recs hsearch
            omega
          · simp only [Bool.not_eq_true] at hp
            simp only [hp, Bool.false_eq_true, if_false]
            exact le_trans (Nat.le_of_eq (Nat.add_zero _)) (hinv empId k)
        · intro r' hr' _
          exact List.mem_append_left _ hr'
  · rw [hg.1]
    exact ⟨hinv, fun r hr _ => hr⟩

/-- The check-in endpoint (UTC server clock) preserves the
open-per-UTC-day bound and never modifies a closed record. -/
theorem checkin_preserves (geoDist : ℚ → ℚ → ℚ → ℚ → ℚ) (now : Int)
    (userId : Nat) (req : CheckinReq) (st : AttState)
    (hinv : ∀ empId k, openOnUtcDay empId k st.recs ≤ 1) :
    (∀ empId k,
      openOnUtcDay empId k (checkin geoDist 0 now userId req st).2.recs ≤ 1) ∧
    closedPreserved st.recs (checkin geoDist 0 now userId req st).2.recs := by
  have hg := dedupEmployee_recs userId st
  unfold checkin
  dsimp only
  split
  · rw [hg.1]
    exact ⟨hinv, fun r hr _ => hr⟩
  · split
    · rw [hg.1]
      exact ⟨hinv, fun r hr _ => hr⟩
    · rename_i hsearch
      dsimp only
      rw [hg.1, hg.2]
      rw [hg.1] at hsearch
      constructor
      · intro empId k
        rw [openOnUtcDay_append]
        by_cases hp : (((⟨st.nextRecId, (dedupEmployee userId st).1.id,
            now, none, "00:00:00", req.latitude, req.longitude,
            req.selfie_photo⟩ : AttRec).employee_id == empId &&
            (⟨st.nextRecId, (dedupEmployee userId st).1.id, now, none,
            "00:00:00", req.latitude, req.longitude,
            req.selfie_photo⟩ : AttRec).check_out.isNone &&
            (utcDay (⟨st.nextRecId, (dedupEmployee userId st).1.id,
            now, none, "00:00:00", req.latitude, req.longitude,
            req.selfie_photo⟩ : AttRec).check_in == k)) = true)
        · simp only [hp, if_true]
          simp only [Bool.and_eq_true, beq_iff_eq] at hp
          obtain ⟨⟨he, _⟩, hk⟩ := hp
          have h0 : openOnUtcDay empId k st.recs = 0 := by
            rw [← he, ← hk]
            exact openOnUtcDay_zero_of_searchOpenToday_none _ now st.recs
              hsearch
          omega
        · simp only [Bool.not_eq_true] at hp
          simp only [hp, Bool.false_eq_true, if_false]
          exact le_trans (Nat.le_of_eq (Nat.add_zero _)) (hinv empId k)
      · intro r' hr' _
        exact List.mem_append_left _ hr'

def demoCheckinReq : CheckinReq := ⟨.null, .null, .num 1, .num 2, .str "img"⟩

def demoCheckoutReq : CheckoutReq := ⟨none, .null, .null⟩

/-- C2 (amended): under sequential execution with the server clock in
UTC, every attendance operation (toggle, check-in, check-out) preserves
the invariant "at most one record with `check_out` unset per employee
per *UTC* calendar day", and none of them ever modifies a record whose
`check_out` is already set (the toggle's SQL update carries a
`check_out IS NULL` guard; the check-out endpoint's update is keyed by
the id of a record its search already proved open, which with unique
record ids cannot be a closed row).  Per the specification's fixed local
(Asia/Jakarta) calendar day the invariant is *not* preserved — see the
counterexample: C4's window mismatch lets sequential toggles create two
open records on one Jakarta day. -/
theorem attendance_ops_preserve_invariant
    (geoDist : ℚ → ℚ → ℚ → ℚ → ℚ) (now : Int) (userId : Nat)
    (treq : ToggleReq) (creq : CheckinReq) (oreq : CheckoutReq)
    (st : AttState) (hids : (st.recs.map AttRec.id).Nodup)
    (hinv : ∀ empId k, openOnUtcDay empId k st.recs ≤ 1) :
    ((∀ empId k,
        openOnUtcDay empId k (toggle geoDist 0 now userId treq st).2.recs ≤ 1) ∧
      closedPreserved st.recs (toggle geoDist 0 now userId treq st).2.recs) ∧
    ((∀ empId k,
        openOnUtcDay empId k (checkin geoDist 0 now userId creq st).2.recs ≤ 1) ∧
      closedPreserved st.recs (checkin geoDist 0 now userId creq st).2.recs) ∧
    ((∀ empId k,
        openOnUtcDay empId k (checkout now userId oreq st).2.recs ≤ 1) ∧
      closedPreserved st.recs (checkout now userId oreq st).2.recs) :=
  ⟨toggle_preserves geoDist now userId treq st hinv,
   checkin_preserves geoDist now userId creq st hinv,
   checkout_preserves now userId oreq st hids hinv⟩

/-- Closed witness for `attendance_ops_preserve_invariant`. -/
theorem attendance_ops_preserve_invariant_witness :
    ((∀ empId k, openOnUtcDay empId k
        (toggle geoDistZero 0 1735761600 1 demoReq demoSt).2.recs ≤ 1) ∧
      closedPreserved demoSt.recs
        (toggle geoDistZero 0 1735761600 1 demoReq demoSt).2.recs) ∧
    ((∀ empId k, openOnUtcDay empId k
        (checkin geoDistZero 0 1735761600 1 demoCheckinReq demoSt).2.recs ≤ 1) ∧
      closedPreserved demoSt.recs
        (checkin geoDistZero 0 1735761600 1 demoCheckinReq demoSt).2.recs) ∧
    ((∀ empId k, openOnUtcDay empId k
        (checkout 1735761600 1 demoCheckoutReq demoSt).2.recs ≤ 1) ∧
      closedPreserved demoSt.recs
        (checkout 1735761600 1 demoCheckoutReq demoSt).2.recs) :=
  attendance_ops_preserve_invariant geoDistZero 1735761600 1 demoReq
    demoCheckinReq demoCheckoutReq demoSt (by simp [demoSt])
    (fun empId k => by simp [demoSt, openOnUtcDay])

/-- Counterexample to C2 as stated (fixed local time zone day): starting
from an empty store (the invariant holds trivially — a single record
after the first toggle), a toggle at 2025-01-01T18:00Z (Jakarta
2025-01-02 01:00) checks in, and a second toggle at 2025-01-02T01:00Z
(Jakarta 2025-01-02 08:00, same Jakarta day 20090) finds nothing in its
UTC-date window and checks in *again*: two open records for employee 1
on one Asia/Jakarta calendar day. -/
theorem attendance_invariant_counterexample :
    (toggle geoDistZero 0 1735754400 1 demoReq demoSt).2.recs.length = 1 ∧
    openOnJakartaDay 1 20090
      (toggle geoDistZero 0 1735779600 1 demoReq
        (toggle geoDistZero 0 1735754400 1 demoReq demoSt).2).2.recs = 2 := by
  refine ⟨rfl, rfl⟩
